import Mathlib

/-!
Verification development for the iiot shopfloor simulator (Go sources).

Shallow embedding conventions:
* `time.Time` and `time.Duration` values are rationals (nanoseconds or seconds
  do not matter; all comparisons in the source are order comparisons and all
  arithmetic is addition, subtraction, multiplication by fractions and
  division, which ℚ models exactly).
* Go `int` counters are `Int`.
* Randomness (`NoiseGenerator` draws) is passed in as explicit oracle values.
* Callbacks do not mutate machine state in the source; where a claim is about
  callbacks firing, the embedded function additionally returns the list of
  fired events.
* Pointer identity of shared `PartBuffer`s (needed for the wiring claim) is
  modelled by allocation ids handed out by an allocation counter.
-/

namespace IIoTSim

/-! ## Core data model — src/internal/core/types.go -/

/-- `MachineState` from types.go. -/
inductive MachineState where
  | Idle
  | Setup
  | Running
  | PlannedStop
  | UnplannedStop
deriving DecidableEq, Repr

/-- `PartStatus` from types.go. -/
inductive PartStatus where
  | InForming
  | AwaitingPickup
  | InTransit
  | AwaitingWelding
  | BeingWelded
  | Complete
  | Scrap
deriving DecidableEq, Repr

/-- `Part` from types.go (timestamps as ℚ). -/
structure Part where
  id : String
  orderID : String
  status : PartStatus
  location : String
  createdAt : ℚ
  formingComplete : ℚ
  pickingComplete : ℚ
  weldingComplete : ℚ
  formingMachineID : String
  pickerRobotID : String
  spotWelderID : String
  isScrap : Bool
  scrapReason : String
deriving DecidableEq, Repr

/-- A zero-valued `Part` (Go zero value), convenient for building literals. -/
def Part.zero : Part :=
  { id := "", orderID := "", status := PartStatus.InForming, location := ""
    createdAt := 0, formingComplete := 0, pickingComplete := 0
    weldingComplete := 0, formingMachineID := "", pickerRobotID := ""
    spotWelderID := "", isScrap := false, scrapReason := "" }

/-- `ProductionOrder` from types.go. -/
structure ProductionOrder where
  orderID : String
  partNumber : String
  partDescription : String
  quantity : Int
  quantityCompleted : Int
  quantityScrap : Int
  dueDate : ℚ
  customer : String
  priority : Int
  status : String
  startedAt : ℚ
  estimatedCompletion : ℚ
deriving DecidableEq, Repr

def OrderStatusQueued : String := "QUEUED"
def OrderStatusInProgress : String := "IN_PROGRESS"
def OrderStatusCompleted : String := "COMPLETED"
def OrderStatusCancelled : String := "CANCELLED"

/-- `ErrorInfo` from types.go. -/
structure ErrorInfo where
  code : String
  message : String
  occurredAt : ℚ
  expectedEnd : ℚ
deriving DecidableEq, Repr

/-- `PartBuffer` from types.go: bounded FIFO over `*Part`. -/
structure PartBuffer where
  maxCapacity : Nat
  queue : List Part
deriving DecidableEq, Repr

/-- `NewPartBuffer` from types.go. -/
def NewPartBuffer (capacity : Nat) : PartBuffer :=
  { maxCapacity := capacity, queue := [] }

/-- `PartBuffer.Push`: returns false (and leaves the buffer unchanged) when
`len(pb.Queue) >= pb.MaxCapacity`, else appends. -/
def PartBuffer.push (pb : PartBuffer) (part : Part) : Bool × PartBuffer :=
  if pb.queue.length ≥ pb.maxCapacity then (false, pb)
  else (true, { pb with queue := pb.queue ++ [part] })

/-- `PartBuffer.Pop`: removes and returns the first part (FIFO); `nil` when
empty. -/
def PartBuffer.pop (pb : PartBuffer) : Option Part × PartBuffer :=
  match pb.queue with
  | [] => (none, pb)
  | part :: rest => (some part, { pb with queue := rest })

/-- `PartBuffer.Peek`. -/
def PartBuffer.peek (pb : PartBuffer) : Option Part :=
  match pb.queue with
  | [] => none
  | part :: _ => some part

/-- `PartBuffer.Count`. -/
def PartBuffer.count (pb : PartBuffer) : Nat := pb.queue.length

/-- `PartBuffer.IsFull`. -/
def PartBuffer.isFull (pb : PartBuffer) : Bool := pb.queue.length ≥ pb.maxCapacity

/-- `PartBuffer.IsEmpty`. -/
def PartBuffer.isEmpty (pb : PartBuffer) : Bool := pb.queue.length = 0

/-- One client operation on a `PartBuffer` (results discarded), used to
describe the reachable buffer states. -/
inductive BufOp where
  | push (p : Part)
  | pop
  | peek
deriving Repr

/-- Applying one operation to a buffer. `peek` and a failed `push` leave the
buffer unchanged, exactly as in the source. -/
def PartBuffer.applyOp (pb : PartBuffer) (op : BufOp) : PartBuffer :=
  match op with
  | BufOp.push p => (pb.push p).2
  | BufOp.pop => pb.pop.2
  | BufOp.peek => pb

/-- The buffer reached from `NewPartBuffer cap` after an operation sequence. -/
def runOps (cap : Nat) (ops : List BufOp) : PartBuffer :=
  ops.foldl PartBuffer.applyOp (NewPartBuffer cap)

/-! ## Runtime configuration — internal/config (runtime part of
src/internal/core/types.go bundle) -/

/-- The static `Config` fields the runtime config and the line runner read. -/
structure Config where
  simulatorName : String
  cycleTime : ℚ
  setupTime : ℚ
  scrapRate : ℚ
  errorRate : ℚ
  publishInterval : ℚ
deriving DecidableEq, Repr

/-- `RuntimeConfig` (mutex dropped: all accesses happen through the embedded
functions, which model the critical sections). -/
structure RuntimeConfig where
  cycleTimeScale : ℚ
  scrapRate : ℚ
  errorRate : ℚ
  baseCycleTime : ℚ
  baseSetupTime : ℚ
deriving DecidableEq, Repr

/-- `NewRuntimeConfig`. -/
def NewRuntimeConfig (cfg : Config) : RuntimeConfig :=
  { cycleTimeScale := 1, scrapRate := cfg.scrapRate, errorRate := cfg.errorRate
    baseCycleTime := cfg.cycleTime, baseSetupTime := cfg.setupTime }

def RuntimeConfig.getCycleTimeScale (rc : RuntimeConfig) : ℚ := rc.cycleTimeScale

def RuntimeConfig.getScrapRate (rc : RuntimeConfig) : ℚ := rc.scrapRate

def RuntimeConfig.getErrorRate (rc : RuntimeConfig) : ℚ := rc.errorRate

/-- `RuntimeConfig.GetEffectiveCycleTime` = baseCycleTime / cycleTimeScale. -/
def RuntimeConfig.getEffectiveCycleTime (rc : RuntimeConfig) : ℚ :=
  rc.baseCycleTime / rc.cycleTimeScale

/-- `RuntimeConfig.GetEffectiveSetupTime`. -/
def RuntimeConfig.getEffectiveSetupTime (rc : RuntimeConfig) : ℚ :=
  rc.baseSetupTime / rc.cycleTimeScale

/-- `RuntimeConfig.GetEffectiveErrorDuration`. -/
def RuntimeConfig.getEffectiveErrorDuration (rc : RuntimeConfig) (base : ℚ) : ℚ :=
  base / rc.cycleTimeScale

/-- `RuntimeConfig.SetCycleTimeScale`: valid range 0.1 – 10.0. A Go setter
mutates on success and returns an error (leaving the receiver untouched)
otherwise; we return the error alongside the post-call config. -/
def RuntimeConfig.setCycleTimeScale (rc : RuntimeConfig) (scale : ℚ) :
    Option String × RuntimeConfig :=
  if scale < 1/10 ∨ scale > 10 then
    (some "cycle time scale must be between 0.1 and 10.0", rc)
  else (none, { rc with cycleTimeScale := scale })

/-- `RuntimeConfig.SetScrapRate`: valid range 0.0 – 0.5. -/
def RuntimeConfig.setScrapRate (rc : RuntimeConfig) (rate : ℚ) :
    Option String × RuntimeConfig :=
  if rate < 0 ∨ rate > 1/2 then
    (some "scrap rate must be between 0.0 and 0.5", rc)
  else (none, { rc with scrapRate := rate })

/-- `RuntimeConfig.SetErrorRate`: valid range 0.0 – 0.2. -/
def RuntimeConfig.setErrorRate (rc : RuntimeConfig) (rate : ℚ) :
    Option String × RuntimeConfig :=
  if rate < 0 ∨ rate > 1/5 then
    (some "error rate must be between 0.0 and 0.2", rc)
  else (none, { rc with errorRate := rate })

/-- `RuntimeConfigSnapshot`. -/
structure RuntimeConfigSnapshot where
  cycleTimeScale : ℚ
  baseCycleTime : ℚ
  effectiveCycleTime : ℚ
  baseSetupTime : ℚ
  effectiveSetupTime : ℚ
  scrapRate : ℚ
  errorRate : ℚ
deriving DecidableEq, Repr

/-- `RuntimeConfig.Snapshot`. -/
def RuntimeConfig.snapshot (rc : RuntimeConfig) : RuntimeConfigSnapshot :=
  { cycleTimeScale := rc.cycleTimeScale
    baseCycleTime := rc.baseCycleTime
    effectiveCycleTime := rc.baseCycleTime / rc.cycleTimeScale
    baseSetupTime := rc.baseSetupTime
    effectiveSetupTime := rc.baseSetupTime / rc.cycleTimeScale
    scrapRate := rc.scrapRate
    errorRate := rc.errorRate }

/-! ## BaseMachine and MachineConfig — core machine.go
(bundled in src/internal/health/handler.go) -/

/-- `MachineConfig` from core. `Runtime` is an optional pointer to the shared
`RuntimeConfig`. -/
structure MachineConfig where
  name : String
  cycleTime : ℚ
  setupTime : ℚ
  scrapRate : ℚ
  errorRate : ℚ
  publishInterval : ℚ
  runtime : Option RuntimeConfig
deriving DecidableEq, Repr

/-- `MachineConfig.GetEffectiveCycleTime`: uses the runtime config whenever it
is present, falling back to the per-machine `CycleTime` only when `Runtime`
is nil. -/
def MachineConfig.getEffectiveCycleTime (mc : MachineConfig) : ℚ :=
  match mc.runtime with
  | some rt => rt.getEffectiveCycleTime
  | none => mc.cycleTime

/-- `MachineConfig.GetEffectiveSetupTime`. -/
def MachineConfig.getEffectiveSetupTime (mc : MachineConfig) : ℚ :=
  match mc.runtime with
  | some rt => rt.getEffectiveSetupTime
  | none => mc.setupTime

/-- `MachineConfig.GetEffectiveScrapRate`. -/
def MachineConfig.getEffectiveScrapRate (mc : MachineConfig) : ℚ :=
  match mc.runtime with
  | some rt => rt.getScrapRate
  | none => mc.scrapRate

/-- `MachineConfig.GetEffectiveErrorRate`. -/
def MachineConfig.getEffectiveErrorRate (mc : MachineConfig) : ℚ :=
  match mc.runtime with
  | some rt => rt.getErrorRate
  | none => mc.errorRate

/-- `MachineConfig.GetEffectiveErrorDuration`. -/
def MachineConfig.getEffectiveErrorDuration (mc : MachineConfig) (base : ℚ) : ℚ :=
  match mc.runtime with
  | some rt => rt.getEffectiveErrorDuration base
  | none => base

/-- `BaseMachine` (callbacks are modelled by the event lists the embedded
functions return; they never mutate machine state in the source). -/
structure BaseMachine where
  config : MachineConfig
  state : MachineState
  stateEnteredAt : ℚ
  cycleStartedAt : ℚ
  currentOrder : Option ProductionOrder
  orderQueue : List ProductionOrder
  goodParts : Int
  scrapParts : Int
  currentError : Option ErrorInfo
deriving DecidableEq, Repr

/-- `NewBaseMachine` (now = value of `time.Now()` at construction). -/
def NewBaseMachine (cfg : MachineConfig) (now : ℚ) : BaseMachine :=
  { config := cfg, state := MachineState.Idle, stateEnteredAt := now
    cycleStartedAt := 0, currentOrder := none, orderQueue := []
    goodParts := 0, scrapParts := 0, currentError := none }

/-- `BaseMachine.TransitionTo`. Returns the machine together with the list of
`OnStateChange(old, new)` events fired (`time.Now()` passed as `now`). -/
def BaseMachine.transitionTo (bm : BaseMachine) (newState : MachineState)
    (now : ℚ) : BaseMachine × List (MachineState × MachineState) :=
  if bm.state = newState then (bm, [])
  else
    ({ bm with state := newState, stateEnteredAt := now },
     [(bm.state, newState)])

/-- `BaseMachine.AddOrder`. -/
def BaseMachine.addOrder (bm : BaseMachine) (order : ProductionOrder) : BaseMachine :=
  { bm with orderQueue := bm.orderQueue ++ [order] }

/-- `BaseMachine.StartNextOrder`. -/
def BaseMachine.startNextOrder (bm : BaseMachine) (now : ℚ) : BaseMachine × Bool :=
  match bm.orderQueue with
  | [] => (bm, false)
  | o :: rest =>
    ({ bm with
        currentOrder := some ({ o with status := OrderStatusInProgress, startedAt := now })
        orderQueue := rest }, true)

/-- `BaseMachine.TriggerError`: installs `ErrorInfo` and transitions to
`UnplannedStop` (state-change events dropped, as no line-mode machine
registers callbacks). -/
def BaseMachine.triggerError (bm : BaseMachine) (code message : String)
    (duration now : ℚ) : BaseMachine :=
  let err : ErrorInfo :=
    { code := code, message := message, occurredAt := now
      expectedEnd := now + duration }
  let bm1 := { bm with currentError := some err }
  (bm1.transitionTo MachineState.UnplannedStop now).1

/-- `BaseMachine.ClearError`. -/
def BaseMachine.clearError (bm : BaseMachine) : BaseMachine :=
  { bm with currentError := none }

/-- `BaseMachine.IsErrorResolved`: `now` strictly after `ExpectedEnd`. -/
def BaseMachine.isErrorResolved (bm : BaseMachine) (now : ℚ) : Bool :=
  match bm.currentError with
  | none => false
  | some e => now > e.expectedEnd

/-- `BaseMachine.CompleteCycle`: increments the machine counter and the same
counter on `currentOrder` (the `OnCycleComplete` callback fires afterwards;
it does not touch the machine). -/
def BaseMachine.completeCycle (bm : BaseMachine) (isScrap : Bool) : BaseMachine :=
  if isScrap then
    { bm with
        scrapParts := bm.scrapParts + 1
        currentOrder := bm.currentOrder.map fun o =>
          { o with quantityScrap := o.quantityScrap + 1 } }
  else
    { bm with
        goodParts := bm.goodParts + 1
        currentOrder := bm.currentOrder.map fun o =>
          { o with quantityCompleted := o.quantityCompleted + 1 } }

/-- `BaseMachine.IsOrderComplete`. -/
def BaseMachine.isOrderComplete (bm : BaseMachine) : Bool :=
  match bm.currentOrder with
  | none => false
  | some o => o.quantityCompleted + o.quantityScrap ≥ o.quantity

/-- `BaseMachine.FinishOrder`. -/
def BaseMachine.finishOrder (bm : BaseMachine) : BaseMachine :=
  match bm.currentOrder with
  | none => bm
  | some _ => { bm with currentOrder := none }

/-- `BaseMachine.ElapsedInState` at instant `now`. -/
def BaseMachine.elapsedInState (bm : BaseMachine) (now : ℚ) : ℚ :=
  now - bm.stateEnteredAt

/-- `BaseMachine.ElapsedInCycle` at instant `now`. -/
def BaseMachine.elapsedInCycle (bm : BaseMachine) (now : ℚ) : ℚ :=
  now - bm.cycleStartedAt

/-! ## Forming machine — internal/machines/forming (src/unnamed/part_007) -/

/-- `FormingPhase`. -/
inductive FormingPhase where
  | Idle
  | Load
  | Form
  | Hold
  | Eject
  | Raise
deriving DecidableEq, Repr

/-- `FormingConfig`. -/
structure FormingConfig where
  targetTemperature : ℚ
  maxPressure : ℚ
  maxFormingForce : ℚ
  ramTravel : ℚ
  maxRamSpeed : ℚ
  loadFraction : ℚ
  formFraction : ℚ
  holdFraction : ℚ
  ejectFraction : ℚ
  raiseFraction : ℚ
  outputBufferCapacity : Nat
deriving DecidableEq, Repr

/-- `DefaultFormingConfig`. -/
def DefaultFormingConfig : FormingConfig :=
  { targetTemperature := 45, maxPressure := 150, maxFormingForce := 250
    ramTravel := 400, maxRamSpeed := 80
    loadFraction := 1/10, formFraction := 4/10, holdFraction := 15/100
    ejectFraction := 15/100, raiseFraction := 2/10
    outputBufferCapacity := 5 }

/-- The forming error code set (`AllErrorCodes`). -/
def formingErrorCodes : List String :=
  ["F001", "F002", "F003", "F004", "F005", "F006"]

/-- `FormingMachine` (base machine flattened in by composition; the fields of
`FormingState` are inlined). -/
structure FormingMachine where
  base : BaseMachine
  formConfig : FormingConfig
  phase : FormingPhase
  phaseStartedAt : ℚ
  cycleCount : Int
  currentRamPosition : ℚ
  outputBuffer : PartBuffer
  currentPartID : String
  name : String
  partCounter : Int
deriving DecidableEq, Repr

/-- Random draws consumed by one forming `Update` tick. `errorRoll` is the
outcome of `noise.ShouldTrigger`, `errorIndex` the `UniformInt` pick of the
error code, `errorDuration` the `Uniform` duration draw, `scrapRoll` the
outcome of `noise.Bool(scrapRate)` inside `ejectPart`. -/
structure FormingOracle where
  errorRoll : Bool
  errorIndex : Nat
  errorDuration : ℚ
  scrapRoll : Bool
deriving DecidableEq, Repr

/-- `NewFormingMachine` (the output buffer is allocated with the configured
capacity, phase starts `Idle`, ram at top). -/
def NewFormingMachine (name : String) (cfg : MachineConfig)
    (formCfg : FormingConfig) (now : ℚ) : FormingMachine :=
  { base := NewBaseMachine cfg now, formConfig := formCfg
    phase := FormingPhase.Idle, phaseStartedAt := 0, cycleCount := 0
    currentRamPosition := 0
    outputBuffer := NewPartBuffer formCfg.outputBufferCapacity
    currentPartID := "", name := name, partCounter := 0 }

/-- `FormingMachine.SetPhase` (stamps `PhaseStartedAt` with `time.Now()`). -/
def FormingMachine.setPhase (fm : FormingMachine) (phase : FormingPhase)
    (now : ℚ) : FormingMachine :=
  { fm with phase := phase, phaseStartedAt := now }

/-- `generatePartID`: bumps the counter and formats
`PART-<yyyy-mm-dd>-<counter>`; the date string is supplied by the caller
(`now.Format` in the source). -/
def FormingMachine.generatePartID (fm : FormingMachine) (day : String) :
    FormingMachine :=
  let c := fm.partCounter + 1
  { fm with partCounter := c
            currentPartID := "PART-" ++ day ++ "-" ++ toString c }

/-- `shouldTriggerError`: errors only roll in `Form` or `Hold`. -/
def FormingMachine.shouldTriggerError (fm : FormingMachine)
    (o : FormingOracle) : Bool :=
  if fm.phase ≠ FormingPhase.Form ∧ fm.phase ≠ FormingPhase.Hold then false
  else o.errorRoll

/-- `triggerError`: uniform pick from the code set, uniform duration,
`TriggerError`, phase to `Idle`. -/
def FormingMachine.triggerErrorStep (fm : FormingMachine) (now : ℚ)
    (o : FormingOracle) : FormingMachine :=
  let code := formingErrorCodes.getD (o.errorIndex % formingErrorCodes.length) ""
  let base := fm.base.triggerError code "" o.errorDuration now
  { fm with base := base, phase := FormingPhase.Idle }

/-- `ejectPart`: rolls scrap; on a good part builds the `Part` and pushes it,
falling back to scrap when the push fails; finally calls the base
`CompleteCycle` (which increments the counters again). -/
def FormingMachine.ejectPart (fm : FormingMachine) (now : ℚ)
    (scrapRoll : Bool) : FormingMachine :=
  if scrapRoll then
    let newOrder := fm.base.currentOrder.map fun (o : ProductionOrder) =>
      { o with quantityScrap := o.quantityScrap + 1 }
    let base := { fm.base with
      scrapParts := fm.base.scrapParts + 1
      currentOrder := newOrder }
    { fm with base := base.completeCycle true }
  else
    let part : Part := { Part.zero with
      id := fm.currentPartID
      orderID := (fm.base.currentOrder.map ProductionOrder.orderID).getD ""
      status := PartStatus.AwaitingPickup
      location := fm.name
      createdAt := now
      formingComplete := now
      formingMachineID := fm.name }
    let res := fm.outputBuffer.push part
    if res.1 then
      let newOrder := fm.base.currentOrder.map fun (o : ProductionOrder) =>
        { o with quantityCompleted := o.quantityCompleted + 1 }
      let base := { fm.base with
        goodParts := fm.base.goodParts + 1
        currentOrder := newOrder }
      { fm with outputBuffer := res.2, base := base.completeCycle false }
    else
      -- buffer full at the push: the part is dropped and counted as scrap,
      -- without touching the order counters in this branch
      let base := { fm.base with scrapParts := fm.base.scrapParts + 1 }
      { fm with outputBuffer := res.2, base := base.completeCycle true }

/-- forming `completeCycle`: bump the cycle count, finish the order and go
idle when complete, otherwise restart the cycle at `Load`. -/
def FormingMachine.completeCycleStep (fm : FormingMachine) (now : ℚ)
    (day : String) : FormingMachine :=
  let fm := { fm with cycleCount := fm.cycleCount + 1 }
  if fm.base.isOrderComplete then
    let base := (fm.base.finishOrder.transitionTo MachineState.Idle now).1
    { fm with base := base, phase := FormingPhase.Idle }
  else
    let fm := { fm with base := { fm.base with cycleStartedAt := now } }
    (fm.setPhase FormingPhase.Load now).generatePartID day

/-- `updateIdle` (debug print dropped). -/
def FormingMachine.updateIdle (fm : FormingMachine) (now : ℚ) : FormingMachine :=
  let fm := { fm with phase := FormingPhase.Idle, currentRamPosition := 0 }
  if fm.base.currentOrder.isSome ∨ fm.base.orderQueue ≠ [] then
    let base :=
      if fm.base.currentOrder.isNone then (fm.base.startNextOrder now).1
      else fm.base
    { fm with base := (base.transitionTo MachineState.Setup now).1 }
  else fm

/-- `updateSetup` (uses the raw `Config().SetupTime`). -/
def FormingMachine.updateSetup (fm : FormingMachine) (elapsed now : ℚ)
    (day : String) : FormingMachine :=
  if elapsed ≥ fm.base.config.setupTime then
    let base := (fm.base.transitionTo MachineState.Running now).1
    let fm := { fm with base := { base with cycleStartedAt := now } }
    (fm.setPhase FormingPhase.Load now).generatePartID day
  else fm

/-- `updateRunning`: break check, error roll, full-output-buffer stall in
`Eject`, then the phase sub-FSM driven by cycle-elapsed prefix-sum
boundaries (uses the raw `Config().CycleTime`). -/
def FormingMachine.updateRunning (fm : FormingMachine) (now : ℚ)
    (isBreakTime : Bool) (o : FormingOracle) (day : String) : FormingMachine :=
  if isBreakTime then
    let base := (fm.base.transitionTo MachineState.PlannedStop now).1
    { fm with base := base, phase := FormingPhase.Idle }
  else if fm.shouldTriggerError o then
    fm.triggerErrorStep now o
  else if fm.outputBuffer.isFull ∧ fm.phase = FormingPhase.Eject then
    fm
  else
    let cycleElapsed := fm.base.elapsedInCycle now
    let cycleTime := fm.base.config.cycleTime
    let loadEnd := cycleTime * fm.formConfig.loadFraction
    let formEnd := loadEnd + cycleTime * fm.formConfig.formFraction
    let holdEnd := formEnd + cycleTime * fm.formConfig.holdFraction
    let ejectEnd := holdEnd + cycleTime * fm.formConfig.ejectFraction
    match fm.phase with
    | FormingPhase.Load =>
      let fm := { fm with currentRamPosition := 0 }
      if cycleElapsed ≥ loadEnd then fm.setPhase FormingPhase.Form now else fm
    | FormingPhase.Form =>
      let progress := (cycleElapsed - loadEnd) / (formEnd - loadEnd)
      let fm := { fm with currentRamPosition := progress * fm.formConfig.ramTravel }
      if cycleElapsed ≥ formEnd then fm.setPhase FormingPhase.Hold now else fm
    | FormingPhase.Hold =>
      let fm := { fm with currentRamPosition := fm.formConfig.ramTravel }
      if cycleElapsed ≥ holdEnd then fm.setPhase FormingPhase.Eject now else fm
    | FormingPhase.Eject =>
      if cycleElapsed ≥ ejectEnd then
        (fm.ejectPart now o.scrapRoll).setPhase FormingPhase.Raise now
      else fm
    | FormingPhase.Raise =>
      let progress := (cycleElapsed - ejectEnd) / (cycleTime - ejectEnd)
      let fm := { fm with
        currentRamPosition := fm.formConfig.ramTravel * (1 - progress) }
      if cycleElapsed ≥ cycleTime then fm.completeCycleStep now day else fm
    | FormingPhase.Idle => fm

/-- `updatePlannedStop`. -/
def FormingMachine.updatePlannedStop (fm : FormingMachine)
    (isBreakTime : Bool) (now : ℚ) : FormingMachine :=
  if !isBreakTime then
    { fm with base := (fm.base.transitionTo MachineState.Idle now).1 }
  else fm

/-- `updateUnplannedStop`. -/
def FormingMachine.updateUnplannedStop (fm : FormingMachine) (now : ℚ) :
    FormingMachine :=
  if fm.base.isErrorResolved now then
    let base := (fm.base.clearError.transitionTo MachineState.Idle now).1
    { fm with base := base }
  else fm

/-- `FormingMachine.Update`: state dispatch. -/
def FormingMachine.update (fm : FormingMachine) (now : ℚ) (isBreakTime : Bool)
    (o : FormingOracle) (day : String) : FormingMachine :=
  match fm.base.state with
  | MachineState.Idle => fm.updateIdle now
  | MachineState.Setup => fm.updateSetup (fm.base.elapsedInState now) now day
  | MachineState.Running => fm.updateRunning now isBreakTime o day
  | MachineState.PlannedStop => fm.updatePlannedStop isBreakTime now
  | MachineState.UnplannedStop => fm.updateUnplannedStop now

/-! ## Picker robot — internal/machines/picker (src/unnamed/part_008) -/

/-- `PickerPhase`. -/
inductive PickerPhase where
  | Idle
  | MoveToPickup
  | ApproachPickup
  | Grip
  | RetractPickup
  | MoveToPlace
  | ApproachPlace
  | Release
  | RetractPlace
deriving DecidableEq, Repr

/-- `GripperState`. -/
inductive GripperState where
  | Open
  | Closing
  | Closed
  | Opening
deriving DecidableEq, Repr

/-- `Position3D`. -/
structure Position3D where
  x : ℚ
  y : ℚ
  z : ℚ
deriving DecidableEq, Repr

/-- `PickerConfig` (the fields the state machine reads). -/
structure PickerConfig where
  homePosition : Position3D
  pickupPosition : Position3D
  placePosition : Position3D
  safeZ : ℚ
  moveToPickupFraction : ℚ
  approachPickupFraction : ℚ
  gripFraction : ℚ
  retractPickupFraction : ℚ
  moveToPlaceFraction : ℚ
  approachPlaceFraction : ℚ
  releaseFraction : ℚ
  retractPlaceFraction : ℚ
deriving DecidableEq, Repr

/-- `DefaultPickerConfig` (positions and fractions the cycle uses). -/
def DefaultPickerConfig : PickerConfig :=
  { homePosition := { x := 500, y := 0, z := 800 }
    pickupPosition := { x := 100, y := 300, z := 200 }
    placePosition := { x := 900, y := 300, z := 200 }
    safeZ := 600
    moveToPickupFraction := 15/100
    approachPickupFraction := 8/100
    gripFraction := 5/100
    retractPickupFraction := 8/100
    moveToPlaceFraction := 2/10
    approachPlaceFraction := 8/100
    releaseFraction := 5/100
    retractPlaceFraction := 8/100 }

/-- The picker error code set (`AllErrorCodes`); `P004` is `PartDropped`. -/
def pickerErrorCodes : List String :=
  ["P001", "P002", "P003", "P004", "P005", "P006"]

/-- `PickerRobot` (fields of `PickerState` inlined; the input/output buffers
are the shared buffers as seen by the picker during its tick — the picker is
their only mutator inside one `Update`). -/
structure PickerRobot where
  base : BaseMachine
  pickerConfig : PickerConfig
  phase : PickerPhase
  phaseStartedAt : ℚ
  cycleCount : Int
  currentPosition : Position3D
  targetPosition : Position3D
  gripper : GripperState
  gripperPosition : ℚ
  heldPartID : String
  heldPart : Option Part
  inputBuffer : Option PartBuffer
  outputBuffer : Option PartBuffer
  name : String
deriving DecidableEq, Repr

/-- Random draws consumed by one picker `Update` tick. -/
structure PickerOracle where
  errorRoll : Bool
  errorIndex : Nat
  errorDuration : ℚ
deriving DecidableEq, Repr

/-- `NewPickerRobot` (buffers nil until the coordinator wires them). -/
def NewPickerRobot (name : String) (cfg : MachineConfig)
    (pickerCfg : PickerConfig) (now : ℚ) : PickerRobot :=
  { base := NewBaseMachine cfg now, pickerConfig := pickerCfg
    phase := PickerPhase.Idle, phaseStartedAt := 0, cycleCount := 0
    currentPosition := pickerCfg.homePosition
    targetPosition := pickerCfg.homePosition
    gripper := GripperState.Open, gripperPosition := 0
    heldPartID := "", heldPart := none
    inputBuffer := none, outputBuffer := none, name := name }

/-- `PickerRobot.SetPhase`. -/
def PickerRobot.setPhase (pr : PickerRobot) (phase : PickerPhase) (now : ℚ) :
    PickerRobot :=
  { pr with phase := phase, phaseStartedAt := now }

/-- `interpolatePosition`. -/
def PickerRobot.interpolatePosition (fromPos toPos : Position3D)
    (progress : ℚ) : Position3D :=
  { x := fromPos.x + (toPos.x - fromPos.x) * progress
    y := fromPos.y + (toPos.y - fromPos.y) * progress
    z := fromPos.z + (toPos.z - fromPos.z) * progress }

/-- progress clamp `if progress > 1 { progress = 1 }` used by every phase
handler. -/
def clampProgress (q : ℚ) : ℚ := if q > 1 then 1 else q

/-- `updateMoveToPickup`. -/
def PickerRobot.updateMoveToPickup (pr : PickerRobot) (elapsed phaseEnd now : ℚ) :
    PickerRobot :=
  let progress := clampProgress (elapsed / phaseEnd)
  let target : Position3D :=
    { x := pr.pickerConfig.pickupPosition.x
      y := pr.pickerConfig.pickupPosition.y
      z := pr.pickerConfig.safeZ }
  let pr := { pr with currentPosition :=
    PickerRobot.interpolatePosition pr.pickerConfig.homePosition target progress }
  if elapsed ≥ phaseEnd then pr.setPhase PickerPhase.ApproachPickup now else pr

/-- `updateApproachPickup`. -/
def PickerRobot.updateApproachPickup (pr : PickerRobot)
    (elapsed phaseStart phaseEnd now : ℚ) : PickerRobot :=
  let progress := clampProgress ((elapsed - phaseStart) / (phaseEnd - phaseStart))
  let fromPos : Position3D :=
    { x := pr.pickerConfig.pickupPosition.x
      y := pr.pickerConfig.pickupPosition.y
      z := pr.pickerConfig.safeZ }
  let pr := { pr with currentPosition :=
    PickerRobot.interpolatePosition fromPos pr.pickerConfig.pickupPosition progress }
  if elapsed ≥ phaseEnd then
    let pr := pr.setPhase PickerPhase.Grip now
    { pr with gripper := GripperState.Closing }
  else pr

/-- `updateGrip`: at phase end the gripper closes and the head of the input
buffer is popped; a `nil` pop simply leaves the hand empty, and the phase
advances regardless. -/
def PickerRobot.updateGrip (pr : PickerRobot)
    (elapsed phaseStart phaseEnd now : ℚ) : PickerRobot :=
  let progress := clampProgress ((elapsed - phaseStart) / (phaseEnd - phaseStart))
  let pr := { pr with gripperPosition := progress * 100 }
  if elapsed ≥ phaseEnd then
    let pr := { pr with gripper := GripperState.Closed, gripperPosition := 100 }
    let pr :=
      match pr.inputBuffer with
      | none => pr
      | some buf =>
        match buf.pop with
        | (none, buf2) => { pr with inputBuffer := some buf2 }
        | (some part, buf2) =>
          let held := { part with status := PartStatus.InTransit
                                  location := pr.name }
          { pr with inputBuffer := some buf2
                    heldPartID := held.id, heldPart := some held }
    pr.setPhase PickerPhase.RetractPickup now
  else pr

/-- `updateRetractPickup`. -/
def PickerRobot.updateRetractPickup (pr : PickerRobot)
    (elapsed phaseStart phaseEnd now : ℚ) : PickerRobot :=
  let progress := clampProgress ((elapsed - phaseStart) / (phaseEnd - phaseStart))
  let target : Position3D :=
    { x := pr.pickerConfig.pickupPosition.x
      y := pr.pickerConfig.pickupPosition.y
      z := pr.pickerConfig.safeZ }
  let pr := { pr with currentPosition :=
    PickerRobot.interpolatePosition pr.pickerConfig.pickupPosition target progress }
  if elapsed ≥ phaseEnd then pr.setPhase PickerPhase.MoveToPlace now else pr

/-- `updateMoveToPlace`. -/
def PickerRobot.updateMoveToPlace (pr : PickerRobot)
    (elapsed phaseStart phaseEnd now : ℚ) : PickerRobot :=
  let progress := clampProgress ((elapsed - phaseStart) / (phaseEnd - phaseStart))
  let fromPos : Position3D :=
    { x := pr.pickerConfig.pickupPosition.x
      y := pr.pickerConfig.pickupPosition.y
      z := pr.pickerConfig.safeZ }
  let target : Position3D :=
    { x := pr.pickerConfig.placePosition.x
      y := pr.pickerConfig.placePosition.y
      z := pr.pickerConfig.safeZ }
  let pr := { pr with currentPosition :=
    PickerRobot.interpolatePosition fromPos target progress }
  if elapsed ≥ phaseEnd then pr.setPhase PickerPhase.ApproachPlace now else pr

/-- `updateApproachPlace`. -/
def PickerRobot.updateApproachPlace (pr : PickerRobot)
    (elapsed phaseStart phaseEnd now : ℚ) : PickerRobot :=
  let progress := clampProgress ((elapsed - phaseStart) / (phaseEnd - phaseStart))
  let fromPos : Position3D :=
    { x := pr.pickerConfig.placePosition.x
      y := pr.pickerConfig.placePosition.y
      z := pr.pickerConfig.safeZ }
  let pr := { pr with currentPosition :=
    PickerRobot.interpolatePosition fromPos pr.pickerConfig.placePosition progress }
  if elapsed ≥ phaseEnd then
    let pr := pr.setPhase PickerPhase.Release now
    { pr with gripper := GripperState.Opening }
  else pr

/-- `updateRelease`: at phase end the gripper opens, the held part is stamped
and pushed to the output buffer with the boolean result of `Push`
**discarded**, the hand is cleared unconditionally, and the phase advances to
`RetractPlace` unconditionally. -/
def PickerRobot.updateRelease (pr : PickerRobot)
    (elapsed phaseStart phaseEnd now : ℚ) : PickerRobot :=
  let progress := clampProgress ((elapsed - phaseStart) / (phaseEnd - phaseStart))
  let pr := { pr with gripperPosition := (1 - progress) * 100 }
  if elapsed ≥ phaseEnd then
    let pr := { pr with gripper := GripperState.Open, gripperPosition := 0 }
    let pr :=
      match pr.heldPart with
      | none => pr
      | some part =>
        let released := { part with status := PartStatus.AwaitingWelding
                                    pickingComplete := now
                                    pickerRobotID := pr.name }
        let newOut :=
          match pr.outputBuffer with
          | none => none
          | some buf => some (buf.push released).2
        { pr with outputBuffer := newOut, heldPartID := "", heldPart := none }
    pr.setPhase PickerPhase.RetractPlace now
  else pr

/-- picker `completeCycle`: bump counters (`GoodParts++` and then the base
`CompleteCycle(false)`, which increments good again), then either start the
next cycle when input is waiting or go idle. -/
def PickerRobot.completeCycleStep (pr : PickerRobot) (now : ℚ) : PickerRobot :=
  let pr := { pr with cycleCount := pr.cycleCount + 1 }
  let pr := { pr with base := { pr.base with goodParts := pr.base.goodParts + 1 } }
  let pr := { pr with base := pr.base.completeCycle false }
  if (pr.inputBuffer.map PartBuffer.count).getD 0 > 0 then
    let pr := { pr with base := { pr.base with cycleStartedAt := now } }
    let pr := pr.setPhase PickerPhase.MoveToPickup now
    { pr with currentPosition :=
      { x := pr.pickerConfig.placePosition.x
        y := pr.pickerConfig.placePosition.y
        z := pr.pickerConfig.safeZ } }
  else
    let pr := { pr with base := (pr.base.transitionTo MachineState.Idle now).1 }
    { pr with phase := PickerPhase.Idle }

/-- `updateRetractPlace`. -/
def PickerRobot.updateRetractPlace (pr : PickerRobot)
    (elapsed phaseStart phaseEnd now : ℚ) : PickerRobot :=
  let progress := clampProgress ((elapsed - phaseStart) / (phaseEnd - phaseStart))
  let target : Position3D :=
    { x := pr.pickerConfig.placePosition.x
      y := pr.pickerConfig.placePosition.y
      z := pr.pickerConfig.safeZ }
  let pr := { pr with currentPosition :=
    PickerRobot.interpolatePosition pr.pickerConfig.placePosition target progress }
  if elapsed ≥ phaseEnd then pr.completeCycleStep now else pr

/-- picker `shouldTriggerError`: never in phase `Idle`. -/
def PickerRobot.shouldTriggerError (pr : PickerRobot) (o : PickerOracle) : Bool :=
  if pr.phase = PickerPhase.Idle then false else o.errorRoll

/-- picker `triggerError`: a `PartDropped` (`P004`) error while holding a part
scraps it immediately. -/
def PickerRobot.triggerErrorStep (pr : PickerRobot) (now : ℚ)
    (o : PickerOracle) : PickerRobot :=
  let code := pickerErrorCodes.getD (o.errorIndex % pickerErrorCodes.length) ""
  let duration := pr.base.config.getEffectiveErrorDuration o.errorDuration
  let pr :=
    if code = "P004" ∧ pr.heldPartID ≠ "" then
      { pr with base := { pr.base with scrapParts := pr.base.scrapParts + 1 }
                heldPartID := "", heldPart := none
                gripper := GripperState.Open, gripperPosition := 0 }
    else pr
  let pr := { pr with base := pr.base.triggerError code "" duration now }
  { pr with phase := PickerPhase.Idle }

/-- `updateIdle`. -/
def PickerRobot.updateIdle (pr : PickerRobot) (now : ℚ) : PickerRobot :=
  let pr := { pr with phase := PickerPhase.Idle
                      currentPosition := pr.pickerConfig.homePosition }
  if (pr.inputBuffer.map PartBuffer.count).getD 0 > 0 then
    { pr with base := (pr.base.transitionTo MachineState.Setup now).1 }
  else pr

/-- `updateSetup` (uses `GetEffectiveSetupTime`). -/
def PickerRobot.updateSetup (pr : PickerRobot) (elapsed now : ℚ) : PickerRobot :=
  if elapsed ≥ pr.base.config.getEffectiveSetupTime then
    let pr := { pr with base := (pr.base.transitionTo MachineState.Running now).1 }
    let pr := { pr with base := { pr.base with cycleStartedAt := now } }
    let pr := pr.setPhase PickerPhase.MoveToPickup now
    { pr with targetPosition :=
      { x := pr.pickerConfig.pickupPosition.x
        y := pr.pickerConfig.pickupPosition.y
        z := pr.pickerConfig.safeZ } }
  else pr

/-- `updateRunning`: break (only without a held part), error roll, then the
8-phase sub-FSM with prefix-sum boundaries over `GetEffectiveCycleTime`. -/
def PickerRobot.updateRunning (pr : PickerRobot) (now : ℚ) (isBreakTime : Bool)
    (o : PickerOracle) : PickerRobot :=
  if isBreakTime ∧ pr.heldPartID = "" then
    let pr := { pr with base := (pr.base.transitionTo MachineState.PlannedStop now).1 }
    { pr with phase := PickerPhase.Idle }
  else if pr.shouldTriggerError o then
    pr.triggerErrorStep now o
  else
    let cycleElapsed := pr.base.elapsedInCycle now
    let cycleTime := pr.base.config.getEffectiveCycleTime
    let cfg := pr.pickerConfig
    let moveToPickupEnd := cycleTime * cfg.moveToPickupFraction
    let approachPickupEnd := moveToPickupEnd + cycleTime * cfg.approachPickupFraction
    let gripEnd := approachPickupEnd + cycleTime * cfg.gripFraction
    let retractPickupEnd := gripEnd + cycleTime * cfg.retractPickupFraction
    let moveToPlaceEnd := retractPickupEnd + cycleTime * cfg.moveToPlaceFraction
    let approachPlaceEnd := moveToPlaceEnd + cycleTime * cfg.approachPlaceFraction
    let releaseEnd := approachPlaceEnd + cycleTime * cfg.releaseFraction
    let retractPlaceEnd := releaseEnd + cycleTime * cfg.retractPlaceFraction
    match pr.phase with
    | PickerPhase.MoveToPickup =>
      pr.updateMoveToPickup cycleElapsed moveToPickupEnd now
    | PickerPhase.ApproachPickup =>
      pr.updateApproachPickup cycleElapsed moveToPickupEnd approachPickupEnd now
    | PickerPhase.Grip =>
      pr.updateGrip cycleElapsed approachPickupEnd gripEnd now
    | PickerPhase.RetractPickup =>
      pr.updateRetractPickup cycleElapsed gripEnd retractPickupEnd now
    | PickerPhase.MoveToPlace =>
      pr.updateMoveToPlace cycleElapsed retractPickupEnd moveToPlaceEnd now
    | PickerPhase.ApproachPlace =>
      pr.updateApproachPlace cycleElapsed moveToPlaceEnd approachPlaceEnd now
    | PickerPhase.Release =>
      pr.updateRelease cycleElapsed approachPlaceEnd releaseEnd now
    | PickerPhase.RetractPlace =>
      pr.updateRetractPlace cycleElapsed releaseEnd retractPlaceEnd now
    | PickerPhase.Idle => pr

/-- `updatePlannedStop`. -/
def PickerRobot.updatePlannedStop (pr : PickerRobot) (isBreakTime : Bool)
    (now : ℚ) : PickerRobot :=
  if !isBreakTime then
    { pr with base := (pr.base.transitionTo MachineState.Idle now).1 }
  else pr

/-- `updateUnplannedStop`. -/
def PickerRobot.updateUnplannedStop (pr : PickerRobot) (now : ℚ) : PickerRobot :=
  if pr.base.isErrorResolved now then
    { pr with base := (pr.base.clearError.transitionTo MachineState.Idle now).1 }
  else pr

/-- `PickerRobot.Update`: state dispatch. -/
def PickerRobot.update (pr : PickerRobot) (now : ℚ) (isBreakTime : Bool)
    (o : PickerOracle) : PickerRobot :=
  match pr.base.state with
  | MachineState.Idle => pr.updateIdle now
  | MachineState.Setup => pr.updateSetup (pr.base.elapsedInState now) now
  | MachineState.Running => pr.updateRunning now isBreakTime o
  | MachineState.PlannedStop => pr.updatePlannedStop isBreakTime now
  | MachineState.UnplannedStop => pr.updateUnplannedStop now

/-! ## Line coordinator state — internal/coordinator (src/unnamed/part_003,
part_004) -/

/-- `LineState`. -/
inductive LineState where
  | Running
  | Stopped
  | Error
  | Setup
deriving DecidableEq, Repr

/-- `LineConfig` (fields the wiring and state logic read). -/
structure LineConfig where
  formingMachineName : String
  pickerRobotName : String
  spotWelderName : String
  lineName : String
  theoreticalCycleTime : ℚ
  formingBufferCapacity : Nat
  welderBufferCapacity : Nat
deriving DecidableEq, Repr

/-- `DefaultLineConfig`. -/
def DefaultLineConfig : LineConfig :=
  { formingMachineName := "FormingMachine", pickerRobotName := "PickerRobot"
    spotWelderName := "SpotWelder", lineName := "ProductionLine"
    theoreticalCycleTime := 60, formingBufferCapacity := 5
    welderBufferCapacity := 3 }

/-- `updateLineState` (all three machines are non-nil in line mode): Error
when any machine is in `UnplannedStop`; a previous Error recovers to
`Running`; otherwise the line state is left as it was. -/
def updateLineState (lineState : LineState)
    (formingState pickerState welderState : MachineState) : LineState :=
  let hasError :=
    formingState = MachineState.UnplannedStop ∨
    pickerState = MachineState.UnplannedStop ∨
    welderState = MachineState.UnplannedStop
  if hasError then LineState.Error
  else if lineState = LineState.Error then LineState.Running
  else lineState

/-! ## Buffer wiring — coordinator `SetMachines` and
`NewProductionLineRunner` (src/unnamed/part_003 and the line runner in
src/internal/health/handler.go)

Go shares `*PartBuffer` pointers; pointer identity is modelled by allocation
ids handed out in program order. -/

/-- A buffer reference: allocation id plus the capacity it was created with. -/
structure BufferRef where
  id : Nat
  cap : Nat
deriving DecidableEq, Repr

/-- Allocation state: the next fresh id. -/
structure AllocState where
  nextId : Nat
deriving DecidableEq, Repr

/-- `core.NewPartBuffer` viewed as an allocation. -/
def allocBuffer (s : AllocState) (cap : Nat) : BufferRef × AllocState :=
  ({ id := s.nextId, cap := cap }, { nextId := s.nextId + 1 })

/-- The buffer wiring of the three-station line: which allocation each
pointer field refers to. -/
structure LineWiring where
  formingOutput : BufferRef
  welderInput : BufferRef
  pickerInput : Option BufferRef
  pickerOutput : Option BufferRef
deriving DecidableEq, Repr

/-- Machine construction order in `NewProductionLineRunner`:
`NewFormingMachine` allocates the forming output buffer
(`DefaultFormingConfig.OutputBufferCapacity`), `NewPickerRobot` allocates no
buffer, `NewSpotWelder` allocates the welder input buffer
(`DefaultSpotWelderConfig.InputBufferCapacity = 3`). -/
def buildLineMachines (s : AllocState) : LineWiring × AllocState :=
  let res1 := allocBuffer s DefaultFormingConfig.outputBufferCapacity
  let res2 := allocBuffer res1.2 3
  ({ formingOutput := res1.1, welderInput := res2.1
     pickerInput := none, pickerOutput := none }, res2.2)

/-- `ProductionLineCoordinator.SetMachines`: picker input := forming output;
then a **fresh** buffer of capacity `WelderBufferCapacity` is allocated and
set as the picker output (the comment in the source defers syncing it with
the welder's own input buffer to the update loop, which never does). -/
def coordinatorSetMachines (w : LineWiring) (s : AllocState)
    (welderBufferCapacity : Nat) : LineWiring × AllocState :=
  let w := { w with pickerInput := some w.formingOutput }
  let res := allocBuffer s welderBufferCapacity
  ({ w with pickerOutput := some res.1 }, res.2)

/-- `NewProductionLineRunner` wiring: build machines, `SetMachines` (with
`DefaultLineConfig`), then explicitly
`picker.SetOutputBuffer(welder.GetInputBuffer())` and
`picker.SetInputBuffer(forming.GetOutputBuffer())`. -/
def newProductionLineRunnerWiring : LineWiring :=
  let built := buildLineMachines { nextId := 0 }
  let afterSet := coordinatorSetMachines built.1 built.2
    DefaultLineConfig.welderBufferCapacity
  let w := afterSet.1
  let w := { w with pickerOutput := some w.welderInput }
  { w with pickerInput := some w.formingOutput }

/-- The wiring state after only the coordinator's `SetMachines` call. -/
def setMachinesOnlyWiring : LineWiring :=
  let built := buildLineMachines { nextId := 0 }
  (coordinatorSetMachines built.1 built.2 DefaultLineConfig.welderBufferCapacity).1

/-! ## Line runner machine configs — `NewProductionLineRunner`
(src/internal/health/handler.go) -/

/-- The `baseMachineConfig` built by `NewProductionLineRunner`: the shared
runtime config is attached. -/
def runnerBaseMachineConfig (cfg : Config) (rt : RuntimeConfig) : MachineConfig :=
  { name := "", cycleTime := cfg.cycleTime, setupTime := cfg.setupTime
    errorRate := cfg.errorRate, scrapRate := cfg.scrapRate
    publishInterval := cfg.publishInterval, runtime := some rt }

/-- The `pickerMachineConfig`: a copy of the base config with
`CycleTime = cfg.CycleTime / 3` ("Picker is faster"); `Runtime` stays set. -/
def runnerPickerMachineConfig (cfg : Config) (rt : RuntimeConfig) : MachineConfig :=
  let base := runnerBaseMachineConfig cfg rt
  { base with cycleTime := cfg.cycleTime / 3 }

/-! ## REST config update — src/internal/api/handler.go -/

/-- `ConfigUpdateRequest`: the three optional fields of a POST /api/config
body. -/
structure ConfigUpdateRequest where
  cycleTimeScale : Option ℚ
  scrapRate : Option ℚ
  errorRate : Option ℚ
deriving DecidableEq, Repr

/-- Outcome of `handleConfigUpdate`: 200 with the new snapshot, or 400 with
the setter's error text. -/
inductive ConfigHttpResult where
  | ok (resp : RuntimeConfigSnapshot)
  | badRequest (msg : String)
deriving DecidableEq, Repr

/-- `Handler.handleConfigUpdate` (line mode, JSON already decoded): applies
the requested fields in the order cycleTimeScale, scrapRate, errorRate, with
an early 400 return at the first out-of-range field; fields already set stay
set. Returns the HTTP result together with the runtime config after the
call. -/
def handleConfigUpdate (rc : RuntimeConfig) (req : ConfigUpdateRequest) :
    ConfigHttpResult × RuntimeConfig :=
  let step1 :=
    match req.cycleTimeScale with
    | none => (none, rc)
    | some v => rc.setCycleTimeScale v
  match step1 with
  | (some err, rc1) => (ConfigHttpResult.badRequest err, rc1)
  | (none, rc1) =>
    let step2 :=
      match req.scrapRate with
      | none => (none, rc1)
      | some v => rc1.setScrapRate v
    match step2 with
    | (some err, rc2) => (ConfigHttpResult.badRequest err, rc2)
    | (none, rc2) =>
      let step3 :=
        match req.errorRate with
        | none => (none, rc2)
        | some v => rc2.setErrorRate v
      match step3 with
      | (some err, rc3) => (ConfigHttpResult.badRequest err, rc3)
      | (none, rc3) => (ConfigHttpResult.ok rc3.snapshot, rc3)

/-! ## Derived quantities used by the statements -/

/-- The absolute cycle-elapsed boundary at which the forming `Eject` phase
ends (the prefix sum of the first four phase fractions over the raw
`Config().CycleTime`, exactly as computed in `updateRunning`). -/
def FormingMachine.ejectEndBoundary (fm : FormingMachine) : ℚ :=
  fm.base.config.cycleTime * fm.formConfig.loadFraction +
  fm.base.config.cycleTime * fm.formConfig.formFraction +
  fm.base.config.cycleTime * fm.formConfig.holdFraction +
  fm.base.config.cycleTime * fm.formConfig.ejectFraction

/-- The `Part` value `ejectPart` builds for a good part at instant `now`. -/
def FormingMachine.ejectedPart (fm : FormingMachine) (now : ℚ) : Part :=
  { Part.zero with
    id := fm.currentPartID
    orderID := (fm.base.currentOrder.map ProductionOrder.orderID).getD ""
    status := PartStatus.AwaitingPickup
    location := fm.name
    createdAt := now
    formingComplete := now
    formingMachineID := fm.name }

/-- The spec invariant on a production order. -/
def orderInvariant (o : ProductionOrder) : Prop :=
  o.quantityCompleted + o.quantityScrap ≤ o.quantity

instance (o : ProductionOrder) : Decidable (orderInvariant o) := by
  unfold orderInvariant; infer_instance

/-! ## Concrete fixtures for witnesses and counterexamples -/

/-- A machine config without a runtime override: 30 s cycle, 5 s setup. -/
def fixtureMachineConfig : MachineConfig :=
  { name := "", cycleTime := 30, setupTime := 5, scrapRate := 0
    errorRate := 0, publishInterval := 1, runtime := none }

/-- An in-progress order of quantity 1 with zero counters. -/
def fixtureOrder : ProductionOrder :=
  { orderID := "LN-2026-01001", partNumber := "RAIL-ASM-A01"
    partDescription := "Side Rail Assembly", quantity := 1
    quantityCompleted := 0, quantityScrap := 0, dueDate := 0
    customer := "AutoCorp Inc.", priority := 3
    status := OrderStatusInProgress, startedAt := 0, estimatedCompletion := 0 }

def partA : Part := { Part.zero with id := "PART-2026-02-01-0001" }
def partB : Part := { Part.zero with id := "PART-2026-02-01-0002" }
def partC : Part := { Part.zero with id := "PART-2026-02-01-0003" }
def partD : Part := { Part.zero with id := "PART-2026-02-01-0004" }

/-- A forming machine mid-run, in `Eject`, owning `fixtureOrder`, with the
given output-buffer queue (capacity 5). -/
def fixtureForming (queue : List Part) : FormingMachine :=
  { base := { config := fixtureMachineConfig, state := MachineState.Running
              stateEnteredAt := 0, cycleStartedAt := 0
              currentOrder := some fixtureOrder, orderQueue := []
              goodParts := 0, scrapParts := 0, currentError := none }
    formConfig := DefaultFormingConfig
    phase := FormingPhase.Eject, phaseStartedAt := 20, cycleCount := 0
    currentRamPosition := 400
    outputBuffer := { maxCapacity := 5, queue := queue }
    currentPartID := "PART-2026-02-01-0042", name := "FormingMachine"
    partCounter := 42 }

/-- A picker robot mid-run, in `Release`, holding `partD`, with a **full**
output buffer (capacity 3). -/
def fixturePicker : PickerRobot :=
  { base := { config := fixtureMachineConfig, state := MachineState.Running
              stateEnteredAt := 0, cycleStartedAt := 0
              currentOrder := none, orderQueue := []
              goodParts := 0, scrapParts := 0, currentError := none }
    pickerConfig := DefaultPickerConfig
    phase := PickerPhase.Release, phaseStartedAt := 20, cycleCount := 0
    currentPosition := DefaultPickerConfig.placePosition
    targetPosition := DefaultPickerConfig.placePosition
    gripper := GripperState.Opening, gripperPosition := 50
    heldPartID := partD.id, heldPart := some partD
    inputBuffer := some { maxCapacity := 5, queue := [] }
    outputBuffer := some { maxCapacity := 3, queue := [partA, partB, partC] }
    name := "PickerRobot" }

/-- A freshly constructed base machine (state `Idle`). -/
def fixtureBase : BaseMachine := NewBaseMachine fixtureMachineConfig 0

def fixtureRuntimeConfig : RuntimeConfig :=
  { cycleTimeScale := 1, scrapRate := 1/20, errorRate := 1/50
    baseCycleTime := 30, baseSetupTime := 5 }

def fixtureStaticConfig : Config :=
  { simulatorName := "ProductionLine", cycleTime := 30, setupTime := 5
    scrapRate := 1/20, errorRate := 1/50, publishInterval := 1 }

/-! # Claims -/

/-! ## C1 — buffer wiring of the line -/

/-- C1 counterexample: after the coordinator's own `SetMachines` wiring the
picker's output buffer is a freshly allocated buffer, **not** the spot
welder's input buffer, so the claim fails for `SetMachines` as stated. -/
theorem C1_setMachines_not_welder_input :
    setMachinesOnlyWiring.pickerOutput ≠ some setMachinesOnlyWiring.welderInput := by
  decide

/-- C1 (amended): after the full `NewProductionLineRunner` setup — which
overrides the picker's buffers after calling `SetMachines` — the picker's
output buffer is the welder's input buffer (capacity 3) and the picker's
input buffer is the forming machine's output buffer (capacity 5). -/
theorem C1_runner_wiring :
    newProductionLineRunnerWiring.pickerOutput =
        some newProductionLineRunnerWiring.welderInput ∧
    newProductionLineRunnerWiring.welderInput.cap = 3 ∧
    newProductionLineRunnerWiring.pickerInput =
        some newProductionLineRunnerWiring.formingOutput ∧
    newProductionLineRunnerWiring.formingOutput.cap = 5 := by
  decide

/-! ## C2 — order counter invariant vs the forming double increment -/

/-- C2 (code bug): one good forming ejection increments the owning order's
`QuantityCompleted` **twice** — once inline in `ejectPart` and once again in
the base `CompleteCycle` — so for a quantity-1 order the counters jump to
(completed 2, scrap 0), the invariant completed + scrap ≤ quantity is
violated, and the order is reported complete with a sum of 2 ≠ 1. -/
theorem C2_eject_double_increment :
    (((fixtureForming []).ejectPart 25 false).base.currentOrder.map
        fun o => (o.quantityCompleted, o.quantityScrap, o.quantity)) =
      some (2, 0, 1) ∧
    ¬ orderInvariant
        ((((fixtureForming []).ejectPart 25 false).base.currentOrder).getD
          fixtureOrder) ∧
    ((fixtureForming []).ejectPart 25 false).base.isOrderComplete = true := by
  refine ⟨by decide, by decide, by decide⟩

/-! ## C3 — picker Release with a full output buffer -/

/-- C3 (code bug): at the end of the `Release` phase with a full output
buffer (capacity 3, three parts queued), a picker `Update` discards the
failed `Push` result, clears the hand anyway and advances to `RetractPlace`:
the output buffer is unchanged and the held part is gone — it is lost, the
machine does not stall in `Release`. (Fixture: effective cycle 30 s, release
ends at 20.7 s, tick at 21 s, no error roll.) -/
theorem C3_release_drops_part_on_full_buffer :
    (fixturePicker.update 21 false { errorRoll := false, errorIndex := 0, errorDuration := 0 }).phase
        = PickerPhase.RetractPlace ∧
    (fixturePicker.update 21 false { errorRoll := false, errorIndex := 0, errorDuration := 0 }).heldPartID
        = "" ∧
    (fixturePicker.update 21 false { errorRoll := false, errorIndex := 0, errorDuration := 0 }).heldPart
        = none ∧
    (fixturePicker.update 21 false { errorRoll := false, errorIndex := 0, errorDuration := 0 }).outputBuffer
        = fixturePicker.outputBuffer := by
  norm_num [fixturePicker, fixtureMachineConfig, DefaultPickerConfig,
    PickerRobot.update, PickerRobot.updateRunning, PickerRobot.shouldTriggerError,
    PickerRobot.updateRelease, PickerRobot.setPhase, clampProgress,
    MachineConfig.getEffectiveCycleTime, BaseMachine.elapsedInCycle,
    PartBuffer.push, partA, partB, partC, partD, Part.zero]

/-! ## C4 — forming Eject stall on a full output buffer -/

/-- C4 counterexample: the claim says an `Update` in `Running`/`Eject` with
a full output buffer never leaves the `Eject` phase, but on a break-time
tick the machine transitions to `PlannedStop` and the phase is reset to
`Idle`. -/
theorem C4_break_leaves_eject :
    (fixtureForming [partA, partB, partC, partD, partA]).base.state
        = MachineState.Running ∧
    (fixtureForming [partA, partB, partC, partD, partA]).phase
        = FormingPhase.Eject ∧
    (fixtureForming [partA, partB, partC, partD, partA]).outputBuffer.isFull
        = true ∧
    ((fixtureForming [partA, partB, partC, partD, partA]).update 25 true
        { errorRoll := false, errorIndex := 0, errorDuration := 0
          scrapRoll := false } "2026-02-01").phase ≠ FormingPhase.Eject := by
  refine ⟨by decide, by decide, by decide, ?_⟩
  norm_num [fixtureForming, fixtureMachineConfig, DefaultFormingConfig,
    FormingMachine.update, FormingMachine.updateRunning,
    BaseMachine.transitionTo, MachineState.Running]
  decide

/-- C4 (amended): on a non-break tick, a forming machine in `Running` and
phase `Eject` with a full output buffer is left completely unchanged by
`Update` (it stalls in `Eject`; nothing is pushed and nothing is scrapped);
and on the first non-break tick on which the buffer has space again, the
cycle clock is past the eject boundary and the scrap roll is negative, the
part is pushed onto the output buffer and the phase advances to `Raise`. -/
theorem C4_eject_stall_and_resume (fm : FormingMachine) (now : ℚ)
    (o : FormingOracle) (day : String)
    (hrun : fm.base.state = MachineState.Running)
    (hph : fm.phase = FormingPhase.Eject) :
    (fm.outputBuffer.isFull = true → fm.update now false o day = fm) ∧
    (fm.outputBuffer.isFull = false → o.scrapRoll = false →
      fm.base.elapsedInCycle now ≥ fm.ejectEndBoundary →
      (fm.update now false o day).phase = FormingPhase.Raise ∧
      (fm.update now false o day).outputBuffer.queue =
        fm.outputBuffer.queue ++ [fm.ejectedPart now]) := by
  have htrig : fm.shouldTriggerError o = false := by
    simp [FormingMachine.shouldTriggerError, hph]
  constructor
  · intro hfull
    simp [FormingMachine.update, hrun, FormingMachine.updateRunning, htrig,
      hfull, hph]
  · intro hfull hscrap helap
    have hlen : ¬ fm.outputBuffer.queue.length ≥ fm.outputBuffer.maxCapacity := by
      simpa [PartBuffer.isFull] using hfull
    have helap2 : fm.base.config.cycleTime * fm.formConfig.loadFraction +
        fm.base.config.cycleTime * fm.formConfig.formFraction +
        fm.base.config.cycleTime * fm.formConfig.holdFraction +
        fm.base.config.cycleTime * fm.formConfig.ejectFraction ≤
          now - fm.base.cycleStartedAt := by
      simpa [FormingMachine.ejectEndBoundary, BaseMachine.elapsedInCycle]
        using helap
    simp [FormingMachine.update, hrun, FormingMachine.updateRunning, htrig,
      hfull, hph, BaseMachine.elapsedInCycle, helap2, FormingMachine.ejectPart,
      hscrap, PartBuffer.push, hlen, FormingMachine.setPhase,
      FormingMachine.ejectedPart]

/-- C4 witness: the stall and resume conclusions instantiated on concrete
machines (full buffer 5/5 stalls; buffer 4/5 at tick 25 ≥ boundary 24 pushes
and advances to `Raise`). -/
theorem C4_eject_stall_and_resume_witness :
    ((fixtureForming [partA, partB, partC, partD, partA]).update 25 false
        { errorRoll := false, errorIndex := 0, errorDuration := 0
          scrapRoll := false } "2026-02-01")
      = fixtureForming [partA, partB, partC, partD, partA] ∧
    ((fixtureForming [partA, partB, partC, partD]).update 25 false
        { errorRoll := false, errorIndex := 0, errorDuration := 0
          scrapRoll := false } "2026-02-01").phase = FormingPhase.Raise := by
  constructor
  · exact (C4_eject_stall_and_resume
      (fixtureForming [partA, partB, partC, partD, partA]) 25
      { errorRoll := false, errorIndex := 0, errorDuration := 0, scrapRoll := false }
      "2026-02-01" (by decide) (by decide)).1 (by decide)
  · exact ((C4_eject_stall_and_resume
      (fixtureForming [partA, partB, partC, partD]) 25
      { errorRoll := false, errorIndex := 0, errorDuration := 0, scrapRoll := false }
      "2026-02-01" (by decide) (by decide)).2 (by decide) rfl
      (by norm_num [fixtureForming, fixtureMachineConfig, DefaultFormingConfig,
        FormingMachine.ejectEndBoundary, BaseMachine.elapsedInCycle])).1

/-! ## C5 — picker effective cycle time -/

/-- C5 (code bug): `MachineConfig.GetEffectiveCycleTime` consults the shared
`RuntimeConfig` whenever one is attached and therefore returns
`baseCycleTime / cycleTimeScale` — the full base cycle — for the picker,
even though `NewProductionLineRunner` stored `cfg.CycleTime / 3` in the
picker's own `CycleTime` field (which is thereby dead): with a 30 s base
cycle and scale 1 the picker's effective cycle is 30 s, not 10 s. -/
theorem C5_picker_cycle_ignores_divisor :
    (∀ cfg rt, (runnerPickerMachineConfig cfg rt).getEffectiveCycleTime =
        rt.baseCycleTime / rt.cycleTimeScale) ∧
    (runnerPickerMachineConfig fixtureStaticConfig
        (NewRuntimeConfig fixtureStaticConfig)).cycleTime = 10 ∧
    (runnerPickerMachineConfig fixtureStaticConfig
        (NewRuntimeConfig fixtureStaticConfig)).getEffectiveCycleTime = 30 ∧
    (30 : ℚ) ≠ 10 := by
  refine ⟨fun cfg rt => rfl, ?_, ?_, by norm_num⟩
  · norm_num [runnerPickerMachineConfig, runnerBaseMachineConfig,
      fixtureStaticConfig]
  · norm_num [runnerPickerMachineConfig, runnerBaseMachineConfig,
      fixtureStaticConfig, NewRuntimeConfig, MachineConfig.getEffectiveCycleTime,
      RuntimeConfig.getEffectiveCycleTime]

/-! ## C6 — line state recomputation -/

/-- C6 counterexample: with the line state `Stopped` and all three machines
`Idle` (hence all in Running/Idle/Setup), `updateLineState` leaves the line
state `Stopped` instead of the `Running` the claim requires. -/
theorem C6_stopped_stays_stopped :
    updateLineState LineState.Stopped MachineState.Idle MachineState.Idle
        MachineState.Idle = LineState.Stopped ∧
    LineState.Stopped ≠ LineState.Running := by
  exact ⟨rfl, by decide⟩

/-- C6 (amended): after `updateLineState` the line state is `Error` iff some
machine is in `UnplannedStop` (as read at the start of the coordinator
`Update`, which runs this before advancing the machines); a previous `Error`
recovers to `Running` as soon as no machine is in `UnplannedStop`; in every
other case the line state is left unchanged — it is never recomputed to
`Running` or `Stopped` from machine activity. -/
theorem C6_line_state_error_iff (ls : LineState) (f p w : MachineState) :
    (updateLineState ls f p w = LineState.Error ↔
      (f = MachineState.UnplannedStop ∨ p = MachineState.UnplannedStop ∨
       w = MachineState.UnplannedStop)) ∧
    (ls = LineState.Error →
      ¬(f = MachineState.UnplannedStop ∨ p = MachineState.UnplannedStop ∨
        w = MachineState.UnplannedStop) →
      updateLineState ls f p w = LineState.Running) ∧
    (ls ≠ LineState.Error →
      ¬(f = MachineState.UnplannedStop ∨ p = MachineState.UnplannedStop ∨
        w = MachineState.UnplannedStop) →
      updateLineState ls f p w = ls) := by
  cases ls <;> cases f <;> cases p <;> cases w <;> decide

/-- C6 witness: an `Error` line state with all machines recovered becomes
`Running` on the next update. -/
theorem C6_line_state_error_iff_witness :
    updateLineState LineState.Error MachineState.Idle MachineState.Idle
        MachineState.Idle = LineState.Running :=
  (C6_line_state_error_iff LineState.Error MachineState.Idle MachineState.Idle
    MachineState.Idle).2.1 rfl (by decide)

/-! ## C7 — PartBuffer bounded-FIFO contract -/

/-- Applying any buffer operation preserves the capacity field. -/
theorem PartBuffer.applyOp_maxCapacity (pb : PartBuffer) (op : BufOp) :
    (pb.applyOp op).maxCapacity = pb.maxCapacity := by
  cases op with
  | push p =>
    by_cases hc : pb.queue.length ≥ pb.maxCapacity <;>
      simp [PartBuffer.applyOp, PartBuffer.push, hc]
  | pop =>
    cases hq : pb.queue <;> simp [PartBuffer.applyOp, PartBuffer.pop, hq]
  | peek => rfl

/-- Applying any buffer operation preserves `count ≤ cap`. -/
theorem PartBuffer.applyOp_count_le (pb : PartBuffer) (op : BufOp)
    (h : pb.queue.length ≤ pb.maxCapacity) :
    (pb.applyOp op).queue.length ≤ (pb.applyOp op).maxCapacity := by
  cases op with
  | push p =>
    by_cases hc : pb.queue.length ≥ pb.maxCapacity
    · simpa [PartBuffer.applyOp, PartBuffer.push, hc] using h
    · simp [PartBuffer.applyOp, PartBuffer.push, hc]
      omega
  | pop =>
    cases hq : pb.queue with
    | nil => simp [PartBuffer.applyOp, PartBuffer.pop, hq]
    | cons a rest =>
      have h2 := h
      rw [hq] at h2
      simp [PartBuffer.applyOp, PartBuffer.pop, hq]
      simp at h2
      omega
  | peek => exact h

/-- The capacity field survives any operation sequence. -/
theorem foldl_applyOp_maxCapacity (ops : List BufOp) (pb : PartBuffer) :
    (ops.foldl PartBuffer.applyOp pb).maxCapacity = pb.maxCapacity := by
  induction ops generalizing pb with
  | nil => rfl
  | cons op rest ih =>
    rw [List.foldl_cons, ih, PartBuffer.applyOp_maxCapacity]

/-- The bound `count ≤ cap` survives any operation sequence. -/
theorem foldl_applyOp_count_le (ops : List BufOp) (pb : PartBuffer)
    (h : pb.queue.length ≤ pb.maxCapacity) :
    (ops.foldl PartBuffer.applyOp pb).queue.length ≤
      (ops.foldl PartBuffer.applyOp pb).maxCapacity := by
  induction ops generalizing pb with
  | nil => exact h
  | cons op rest ih =>
    exact ih (pb.applyOp op) (PartBuffer.applyOp_count_le pb op h)

/-- C7: for every buffer reachable from `NewPartBuffer cap` by a sequence of
Push/Pop/Peek operations: the count stays within `[0, cap]`; `Push` fails
iff the count equals `cap`, and then leaves the buffer unchanged, otherwise
appends the part at the back; `Pop` misses iff the buffer is empty, and
otherwise returns the front — the oldest pushed part still present, pushes
appending at the back and pops removing at the front. -/
theorem C7_part_buffer_ops (cap : Nat) (ops : List BufOp) (p : Part) :
    (runOps cap ops).count ≤ cap ∧
    (((runOps cap ops).push p).1 = false ↔ (runOps cap ops).count = cap) ∧
    (((runOps cap ops).push p).1 = false →
      ((runOps cap ops).push p).2 = runOps cap ops) ∧
    (((runOps cap ops).push p).1 = true →
      ((runOps cap ops).push p).2.queue = (runOps cap ops).queue ++ [p]) ∧
    ((runOps cap ops).pop.1 = none ↔ (runOps cap ops).count = 0) ∧
    (∀ q rest, (runOps cap ops).queue = q :: rest →
      (runOps cap ops).pop.1 = some q ∧ (runOps cap ops).pop.2.queue = rest) := by
  have hcap : (runOps cap ops).maxCapacity = cap :=
    foldl_applyOp_maxCapacity ops (NewPartBuffer cap)
  have hinv : (runOps cap ops).queue.length ≤ cap := by
    have h : (runOps cap ops).queue.length ≤ (runOps cap ops).maxCapacity :=
      foldl_applyOp_count_le ops (NewPartBuffer cap) (by simp [NewPartBuffer])
    rwa [hcap] at h
  refine ⟨by simpa [PartBuffer.count] using hinv, ?_, ?_, ?_, ?_, ?_⟩
  · by_cases hc : (runOps cap ops).queue.length ≥ (runOps cap ops).maxCapacity
    · simp only [PartBuffer.push, if_pos hc, PartBuffer.count]
      rw [hcap] at hc
      simp
      omega
    · simp only [PartBuffer.push, if_neg hc, PartBuffer.count]
      rw [hcap] at hc
      simp
      omega
  · intro hfail
    simp only [PartBuffer.push] at hfail ⊢
    by_cases hc : (runOps cap ops).queue.length ≥ (runOps cap ops).maxCapacity
    · rw [if_pos hc]
    · rw [if_neg hc] at hfail
      simp at hfail
  · intro hok
    simp only [PartBuffer.push] at hok ⊢
    by_cases hc : (runOps cap ops).queue.length ≥ (runOps cap ops).maxCapacity
    · rw [if_pos hc] at hok
      simp at hok
    · rw [if_neg hc]
  · cases hq : (runOps cap ops).queue <;>
      simp [PartBuffer.pop, hq, PartBuffer.count]
  · intro q rest hq
    simp [PartBuffer.pop, hq]

/-- C7 witness: on a capacity-2 buffer after two successful pushes and one
rejected one, a further push fails and changes nothing; and a pop after
push-then-pop misses on the emptied buffer. -/
theorem C7_part_buffer_ops_witness :
    ((runOps 2 [BufOp.push partA, BufOp.push partB, BufOp.push partC]).push partD).2
      = runOps 2 [BufOp.push partA, BufOp.push partB, BufOp.push partC] ∧
    (runOps 2 [BufOp.push partA, BufOp.pop]).pop.1 = none := by
  constructor
  · exact (C7_part_buffer_ops 2
      [BufOp.push partA, BufOp.push partB, BufOp.push partC] partD).2.2.1
      (by decide)
  · exact ((C7_part_buffer_ops 2 [BufOp.push partA, BufOp.pop]
      partD).2.2.2.2.1).mpr (by decide)

/-! ## C8 — TransitionTo idempotence -/

/-- C8: `TransitionTo(s)` while already in `s` returns the machine unchanged
(state and `stateEnteredAt` untouched) and fires no callback; from a
different state it sets the state to `s`, re-stamps `stateEnteredAt` with
now, leaves every other field unchanged, and fires `OnStateChange(old, s)`
exactly once. -/
theorem C8_transition_to (bm : BaseMachine) (s : MachineState) (now : ℚ) :
    (bm.state = s → bm.transitionTo s now = (bm, [])) ∧
    (bm.state ≠ s →
      (bm.transitionTo s now).1 = { bm with state := s, stateEnteredAt := now } ∧
      (bm.transitionTo s now).2 = [(bm.state, s)]) := by
  constructor
  · intro h
    simp [BaseMachine.transitionTo, h]
  · intro h
    simp [BaseMachine.transitionTo, h]

/-- C8 witness: a self-transition of a fresh idle machine is a no-op with no
event; a transition to `Running` re-stamps and fires exactly one event. -/
theorem C8_transition_to_witness :
    fixtureBase.transitionTo MachineState.Idle 5 = (fixtureBase, []) ∧
    (fixtureBase.transitionTo MachineState.Running 5).2 =
      [(MachineState.Idle, MachineState.Running)] := by
  constructor
  · exact (C8_transition_to fixtureBase MachineState.Idle 5).1 (by decide)
  · exact ((C8_transition_to fixtureBase MachineState.Running 5).2 (by decide)).2

/-! ## C9 — RuntimeConfig setter validation -/

/-- C9: each setter accepts exactly its documented range — in range the new
value is stored (and a following get returns it) with every other field
unchanged; out of range the call returns an error and the whole config is
unchanged. Ranges: cycleTimeScale [0.1, 10], scrapRate [0, 0.5],
errorRate [0, 0.2]. -/
theorem C9_runtime_setters (rc : RuntimeConfig) (v : ℚ) :
    ((1/10 ≤ v ∧ v ≤ 10) →
      rc.setCycleTimeScale v = (none, { rc with cycleTimeScale := v })) ∧
    ((v < 1/10 ∨ v > 10) →
      rc.setCycleTimeScale v =
        (some "cycle time scale must be between 0.1 and 10.0", rc)) ∧
    ((0 ≤ v ∧ v ≤ 1/2) →
      rc.setScrapRate v = (none, { rc with scrapRate := v })) ∧
    ((v < 0 ∨ v > 1/2) →
      rc.setScrapRate v = (some "scrap rate must be between 0.0 and 0.5", rc)) ∧
    ((0 ≤ v ∧ v ≤ 1/5) →
      rc.setErrorRate v = (none, { rc with errorRate := v })) ∧
    ((v < 0 ∨ v > 1/5) →
      rc.setErrorRate v = (some "error rate must be between 0.0 and 0.2", rc)) := by
  refine ⟨?_, ?_, ?_, ?_, ?_, ?_⟩ <;> intro h
  · have hno : ¬(v < 1/10 ∨ v > 10) := by push_neg; exact h
    simp only [RuntimeConfig.setCycleTimeScale]
    rw [if_neg hno]
  · simp only [RuntimeConfig.setCycleTimeScale]
    rw [if_pos h]
  · have hno : ¬(v < 0 ∨ v > 1/2) := by push_neg; exact h
    simp only [RuntimeConfig.setScrapRate]
    rw [if_neg hno]
  · simp only [RuntimeConfig.setScrapRate]
    rw [if_pos h]
  · have hno : ¬(v < 0 ∨ v > 1/5) := by push_neg; exact h
    simp only [RuntimeConfig.setErrorRate]
    rw [if_neg hno]
  · simp only [RuntimeConfig.setErrorRate]
    rw [if_pos h]

/-- C9 witness: setting scale 2 stores and returns 2; setting scrap rate 3
(out of range) errors and leaves the config untouched. -/
theorem C9_runtime_setters_witness :
    (fixtureRuntimeConfig.setCycleTimeScale 2).2.getCycleTimeScale = 2 ∧
    fixtureRuntimeConfig.setScrapRate 3 =
      (some "scrap rate must be between 0.0 and 0.5", fixtureRuntimeConfig) := by
  constructor
  · rw [(C9_runtime_setters fixtureRuntimeConfig 2).1 (by norm_num)]
    rfl
  · exact (C9_runtime_setters fixtureRuntimeConfig 3).2.2.2.1 (by norm_num)

/-! ## C10 — POST /api/config applies fields sequentially, not atomically -/

/-- C10: `handleConfigUpdate` applies the requested fields in the fixed order
cycleTimeScale, scrapRate, errorRate, returning 400 at the first
out-of-range field; every earlier in-range field has already been stored and
stays stored — and a later in-range field after the failure is not applied.
With an out-of-range first field nothing is applied. -/
theorem C10_config_update_sequential (rc : RuntimeConfig) (v w u : ℚ) :
    ((v < 1/10 ∨ v > 10) → ∀ s e : Option ℚ,
      handleConfigUpdate rc ⟨some v, s, e⟩ =
        (ConfigHttpResult.badRequest
          "cycle time scale must be between 0.1 and 10.0", rc)) ∧
    ((1/10 ≤ v ∧ v ≤ 10) → (w < 0 ∨ w > 1/2) → ∀ e : Option ℚ,
      handleConfigUpdate rc ⟨some v, some w, e⟩ =
        (ConfigHttpResult.badRequest "scrap rate must be between 0.0 and 0.5",
         { rc with cycleTimeScale := v })) ∧
    ((1/10 ≤ v ∧ v ≤ 10) → (0 ≤ w ∧ w ≤ 1/2) → (u < 0 ∨ u > 1/5) →
      handleConfigUpdate rc ⟨some v, some w, some u⟩ =
        (ConfigHttpResult.badRequest "error rate must be between 0.0 and 0.2",
         { rc with cycleTimeScale := v, scrapRate := w })) := by
  refine ⟨?_, ?_, ?_⟩
  · intro hv s e
    have hv2 : v < (10 : ℚ)⁻¹ ∨ 10 < v := by simpa [one_div] using hv
    simp [handleConfigUpdate, RuntimeConfig.setCycleTimeScale, hv2]
  · intro hv hw e
    have hvno : ¬(v < (10 : ℚ)⁻¹ ∨ 10 < v) := by
      push_neg
      exact ⟨by simpa [one_div] using hv.1, hv.2⟩
    have hw2 : w < 0 ∨ (2 : ℚ)⁻¹ < w := by simpa [one_div] using hw
    simp [handleConfigUpdate, RuntimeConfig.setCycleTimeScale,
      RuntimeConfig.setScrapRate, hvno, hw2]
  · intro hv hw hu
    have hvno : ¬(v < (10 : ℚ)⁻¹ ∨ 10 < v) := by
      push_neg
      exact ⟨by simpa [one_div] using hv.1, hv.2⟩
    have hwno : ¬(w < 0 ∨ (2 : ℚ)⁻¹ < w) := by
      push_neg
      exact ⟨hw.1, by simpa [one_div] using hw.2⟩
    have hu2 : u < 0 ∨ (5 : ℚ)⁻¹ < u := by simpa [one_div] using hu
    simp [handleConfigUpdate, RuntimeConfig.setCycleTimeScale,
      RuntimeConfig.setScrapRate, RuntimeConfig.setErrorRate, hvno, hwno, hu2]

/-- C10 witness: the request (scale 2, scrap 3, error 0.1) gets a 400 from
the scrap field, yet leaves scale 2 applied, and the in-range error rate
0.1 is not applied. -/
theorem C10_config_update_sequential_witness :
    handleConfigUpdate fixtureRuntimeConfig ⟨some 2, some 3, some (1/10)⟩ =
      (ConfigHttpResult.badRequest "scrap rate must be between 0.0 and 0.5",
       { fixtureRuntimeConfig with cycleTimeScale := 2 }) :=
  (C10_config_update_sequential fixtureRuntimeConfig 2 3 (1/10)).2.1
    (by norm_num) (by norm_num) (some (1/10))

end IIoTSim
